import Mathlib

set_option maxRecDepth 4000

/-!
Verification development for the anki-agent repository (src/main.py and
src/mobile_main.py): a shallow embedding of its JSON data model, the
image-extraction strategy chain of generate_image, the flashcard pipeline
of main and mobile_main, and the AnkiConnect interaction of add_to_anki.
External effects (HTTP requests, the filesystem) are modelled by explicit
oracles and an association-list filesystem; machine behavior of the Python
runtime (truthiness, dict.get, direct indexing, exceptions) is embedded
faithfully as total Lean functions returning Except values.
-/

/-- JSON values, as produced by response.json() and json.loads. Numbers are
modelled as integers; the claims under study never exercise fractional
numbers. -/
inductive J where
  | str (s : String)
  | num (n : Int)
  | bool (b : Bool)
  | null
  | arr (xs : List J)
  | obj (kvs : List (String × J))

/-- Lookup of a key in an association list, first occurrence wins, as in a
Python dict built from distinct keys. -/
def jLookup : List (String × J) → String → Option J
  | [], _ => none
  | (k, v) :: rest, key => if k = key then some v else jLookup rest key

/-- Python truthiness of a JSON value: empty string, zero, empty list,
empty dict, false and null are falsy. -/
def truthy : J → Bool
  | .str s => s != ""
  | .num n => n != 0
  | .bool b => b
  | .null => false
  | .arr xs => !xs.isEmpty
  | .obj kvs => !kvs.isEmpty

/-- Whether the first list is an initial segment of the second. -/
def listStarts : List Char → List Char → Bool
  | [], _ => true
  | _ :: _, [] => false
  | p :: ps, c :: cs => p = c && listStarts ps cs

/-- Whether the first list occurs contiguously inside the second; models
the Python substring membership test. -/
def containsSub (p : List Char) : List Char → Bool
  | [] => listStarts p []
  | c :: rest => listStarts p (c :: rest) || containsSub p rest

/-- Whether a JSON value is an object that has the given key. -/
def hasKey (j : J) (k : String) : Bool :=
  match j with
  | .obj kvs => (jLookup kvs k).isSome
  | _ => false

/-- Exceptions that Python code raises while scanning a response: a
requests transport error carrying its message, a binascii base64 error, a
KeyError, an IndexError, a TypeError, an AttributeError, and the ValueError
raised by unpacking a 1-element split into two names. -/
inductive StratExn where
  | netE (msg : String)
  | b64E
  | keyE (k : String)
  | idxE
  | typeE
  | attrE
  | unpackE
deriving Repr, DecidableEq

/-- Comparison of a JSON value against a string literal, as Python ==. -/
def jEqStrB (j : J) (s : String) : Bool :=
  match j with
  | .str t => t == s
  | _ => false

/-- Python membership test (the in operator) applied to a JSON value:
key test on dicts, substring test on strings, element test on lists,
TypeError on numbers, booleans and null. -/
def pyContains (j : J) (k : String) : Except StratExn Bool :=
  match j with
  | .obj kvs => .ok ((jLookup kvs k).isSome)
  | .str s => .ok (containsSub k.data s.data)
  | .arr xs => .ok (xs.any (fun x => jEqStrB x k))
  | _ => .error .typeE

/-- Python direct string-key indexing j[k]: dict lookup raising KeyError
when absent, TypeError on every other value. -/
def jIndexKey (j : J) (k : String) : Except StratExn J :=
  match j with
  | .obj kvs =>
    match jLookup kvs k with
    | some v => .ok v
    | none => .error (.keyE k)
  | _ => .error .typeE

/-- Python indexing j[0]: first list element (IndexError when empty),
first character of a string, TypeError or KeyError otherwise. -/
def pyIndex0 (j : J) : Except StratExn J :=
  match j with
  | .arr (x :: _) => .ok x
  | .arr [] => .error .idxE
  | .str s =>
    match s.data with
    | c :: _ => .ok (.str (String.mk [c]))
    | [] => .error .idxE
  | .obj _ => .error (.keyE "0")
  | _ => .error .typeE

/-- Python dict .get with a default: AttributeError on non-dict
receivers. -/
def pyGetD (j : J) (k : String) (d : J) : Except StratExn J :=
  match j with
  | .obj kvs =>
    match jLookup kvs k with
    | some v => .ok v
    | none => .ok d
  | _ => .error .attrE

/-- Python dict .get without a default (returns None when absent). -/
def pyGet (j : J) (k : String) : Except StratExn J :=
  pyGetD j k .null

/-- Whether the current img_bytes value is truthy in Python: an assigned,
non-empty byte string. -/
def isTruthyBytes : Option (List Nat) → Bool
  | some (_ :: _) => true
  | _ => false

/-- Value of one base64 alphabet character. -/
def b64val (c : Char) : Option Nat :=
  if 'A' ≤ c ∧ c ≤ 'Z' then some (c.toNat - 65)
  else if 'a' ≤ c ∧ c ≤ 'z' then some (c.toNat - 97 + 26)
  else if '0' ≤ c ∧ c ≤ '9' then some (c.toNat - 48 + 52)
  else if c = '+' then some 62
  else if c = '/' then some 63
  else none

/-- Decode filtered base64 characters four at a time; a quad ending in
padding stops the decode, and a leftover group of one to three characters
is the Incorrect padding error of binascii (modelled as none). -/
def b64quads : List Char → Option (List Nat)
  | [] => some []
  | a :: b :: c :: d :: rest =>
    match b64val a, b64val b with
    | some x, some y =>
      if c = '=' then some [(x * 4 + y / 16) % 256]
      else
        match b64val c with
        | some z =>
          if d = '=' then some [(x * 4 + y / 16) % 256, ((y % 16) * 16 + z / 4) % 256]
          else
            match b64val d with
            | some w =>
              (b64quads rest).map
                (fun t => (x * 4 + y / 16) % 256 :: ((y % 16) * 16 + z / 4) % 256 ::
                          ((z % 4) * 64 + w) % 256 :: t)
            | none => none
        | none => none
    | _, _ => none
  | _ => none

/-- base64.b64decode with validate=False: characters outside the alphabet
and padding are discarded first, then quads are decoded; none models the
binascii.Error exception. -/
def b64decode (s : String) : Option (List Nat) :=
  b64quads (s.data.filter (fun c => (b64val c).isSome || c = '='))

/-- Python str.strip(): remove whitespace from both ends. -/
def pyStrip (s : String) : String :=
  String.mk (((s.data.dropWhile Char.isWhitespace).reverse.dropWhile Char.isWhitespace).reverse)

/-- Python str.startswith. -/
def pyStartsWith (s pre : String) : Bool :=
  listStarts pre.data s.data

/-- The part of s after its first comma, when s has one; models
content.split with maxsplit one followed by unpacking into two names,
where none stands for the ValueError of unpacking a single element. -/
def splitFirstComma (s : String) : Option String :=
  if s.data.contains ',' then
    some (String.mk ((s.data.dropWhile (fun c => c ≠ ',')).drop 1))
  else none

/-- A single-quote character as a string, used when building HTML and
prompt strings. -/
def sQuote : String := String.mk [Char.ofNat 39]

example : b64decode "aGk=" = some [104, 105] := by decide
example : b64decode "aGk" = none := by decide
example : b64decode "" = some [] := by decide
example : pyStrip "  " = "" := by decide
example : pyStartsWith "data:image/png;base64,x" "data:image" = true := by decide
example : splitFirstComma "data:image/png;base64,aGk=" = some "aGk=" := by decide

/-- Hex digit character used by the \xHH style unicode escapes of
json.dumps (lowercase, as Python emits). -/
def hexDigitC (m : Nat) : Char :=
  if m < 10 then Char.ofNat (48 + m) else Char.ofNat (87 + m)

/-- Six-character unicode escape emitted by json.dumps for a code point. -/
def uEsc (n : Nat) : List Char :=
  ['\\', 'u', hexDigitC (n / 4096 % 16), hexDigitC (n / 256 % 16),
   hexDigitC (n / 16 % 16), hexDigitC (n % 16)]

/-- Escaping of one character by json.dumps with ensure_ascii (the
default used at the regex-fallback call site). -/
def escChar (c : Char) : List Char :=
  if c = '"' then ['\\', '"']
  else if c = '\\' then ['\\', '\\']
  else if c = '\n' then ['\\', 'n']
  else if c = '\t' then ['\\', 't']
  else if c = '\x0d' then ['\\', 'r']
  else if c.toNat < 32 then uEsc c.toNat
  else if c.toNat < 127 then [c]
  else uEsc c.toNat

/-- Escape every character of a string body. -/
def escList (cs : List Char) : List Char :=
  cs.foldr (fun c acc => escChar c ++ acc) []

mutual

/-- json.dumps with default separators, as used by the regex-fallback
strategy to serialize the whole response. -/
def dumpsJ : J → List Char
  | .str s => '"' :: (escList s.data ++ ['"'])
  | .num n => (toString n).data
  | .bool b => if b then "true".data else "false".data
  | .null => "null".data
  | .arr xs => '[' :: (dumpsArr xs ++ [']'])
  | .obj kvs => '\x7b' :: (dumpsObj kvs ++ ['\x7d'])

/-- Serialize list elements joined by comma-space. -/
def dumpsArr : List J → List Char
  | [] => []
  | [x] => dumpsJ x
  | x :: y :: rest => dumpsJ x ++ ',' :: ' ' :: dumpsArr (y :: rest)

/-- Serialize object entries joined by comma-space. -/
def dumpsObj : List (String × J) → List Char
  | [] => []
  | [(k, v)] => '"' :: (escList k.data ++ '"' :: ':' :: ' ' :: dumpsJ v)
  | (k, v) :: p :: rest =>
    ('"' :: (escList k.data ++ '"' :: ':' :: ' ' :: dumpsJ v)) ++ ',' :: ' ' :: dumpsObj (p :: rest)

end

/-- Characters of the capture class of the embedded-pattern regex. -/
def isB64Char (c : Char) : Bool := (b64val c).isSome || c = '='

/-- Try to match the pattern data:image slash [^;]+ ;base64, capture at
the head of the character list, returning the captured payload. -/
def matchDataImage (cs : List Char) : Option (List Char) :=
  if listStarts "data:image/".data cs then
    let rest := cs.drop 11
    let sub := rest.takeWhile (fun c => c ≠ ';')
    if sub.isEmpty then none
    else
      let after := rest.drop sub.length
      if listStarts ";base64,".data after then
        let pay := (after.drop 8).takeWhile isB64Char
        if pay.isEmpty then none else some pay
      else none
  else none

/-- re.search of the embedded-image pattern: try each start position from
the left and return the first capture. -/
def searchDataImage : List Char → Option (List Char)
  | [] => none
  | c :: rest =>
    match matchDataImage (c :: rest) with
    | some p => some p
    | none => searchDataImage rest

/-- Value of a hexadecimal digit character. -/
def hexVal (c : Char) : Option Nat :=
  if '0' ≤ c ∧ c ≤ '9' then some (c.toNat - 48)
  else if 'a' ≤ c ∧ c ≤ 'f' then some (c.toNat - 87)
  else if 'A' ≤ c ∧ c ≤ 'F' then some (c.toNat - 55)
  else none

/-- JSON whitespace. -/
def isJWs (c : Char) : Bool := c = ' ' || c = '\n' || c = '\t' || c = '\x0d'

/-- Drop leading JSON whitespace. -/
def skipWs (cs : List Char) : List Char := cs.dropWhile isJWs

/-- Parse the body of a JSON string after its opening quote; yields the
decoded characters and the remainder after the closing quote. -/
def parseStr : Nat → List Char → Option (List Char × List Char)
  | 0, _ => none
  | _ + 1, [] => none
  | fuel + 1, c :: rest =>
    if c = '"' then some ([], rest)
    else if c = '\\' then
      match rest with
      | [] => none
      | e :: rest2 =>
        if e = 'u' then
          match rest2 with
          | h1 :: h2 :: h3 :: h4 :: rest3 =>
            match hexVal h1, hexVal h2, hexVal h3, hexVal h4 with
            | some a, some b, some c2, some d =>
              (parseStr fuel rest3).map
                (fun p => (Char.ofNat (a * 4096 + b * 256 + c2 * 16 + d) :: p.1, p.2))
            | _, _, _, _ => none
          | _ => none
        else
          let ec := if e = 'n' then '\n' else if e = 't' then '\t'
            else if e = 'r' then '\x0d' else if e = 'b' then '\x08'
            else if e = 'f' then '\x0c' else e
          (parseStr fuel rest2).map (fun p => (ec :: p.1, p.2))
    else (parseStr fuel rest).map (fun p => (c :: p.1, p.2))

/-- Parse a run of decimal digits into a natural number. -/
def parseDigits (cs : List Char) : Option (Nat × List Char) :=
  let ds := cs.takeWhile Char.isDigit
  if ds.isEmpty then none
  else some (ds.foldl (fun a c => a * 10 + (c.toNat - 48)) 0, cs.drop ds.length)

mutual

/-- Recursive-descent JSON value parser modelling json.loads (integer
numbers only; the flashcard payloads under study carry no fractions). -/
def parseVal : Nat → List Char → Option (J × List Char)
  | 0, _ => none
  | fuel + 1, cs0 =>
    match skipWs cs0 with
    | [] => none
    | c :: rest =>
      if c = '"' then (parseStr fuel rest).map (fun p => (J.str (String.mk p.1), p.2))
      else if c = 't' then
        if listStarts "rue".data rest then some (.bool true, rest.drop 3) else none
      else if c = 'f' then
        if listStarts "alse".data rest then some (.bool false, rest.drop 4) else none
      else if c = 'n' then
        if listStarts "ull".data rest then some (.null, rest.drop 3) else none
      else if c = '-' then (parseDigits rest).map (fun p => (J.num (-(p.1 : Int)), p.2))
      else if c.isDigit then
        (parseDigits (c :: rest)).map (fun p => (J.num (p.1 : Int), p.2))
      else if c = '[' then
        match skipWs rest with
        | ']' :: r => some (.arr [], r)
        | r2 => (parseArrItems fuel r2).map (fun p => (J.arr p.1, p.2))
      else if c = '\x7b' then
        match skipWs rest with
        | '\x7d' :: r => some (.obj [], r)
        | r2 => (parseObjItems fuel r2).map (fun p => (J.obj p.1, p.2))
      else none

/-- Parse the items of a non-empty JSON array up to the closing bracket. -/
def parseArrItems : Nat → List Char → Option (List J × List Char)
  | 0, _ => none
  | fuel + 1, cs =>
    match parseVal fuel cs with
    | none => none
    | some (v, r) =>
      match skipWs r with
      | ',' :: r3 => (parseArrItems fuel r3).map (fun p => (v :: p.1, p.2))
      | ']' :: r3 => some ([v], r3)
      | _ => none

/-- Parse the entries of a non-empty JSON object up to the closing
brace. -/
def parseObjItems : Nat → List Char → Option (List (String × J) × List Char)
  | 0, _ => none
  | fuel + 1, cs =>
    match skipWs cs with
    | '"' :: r =>
      match parseStr fuel r with
      | none => none
      | some (k, r2) =>
        match skipWs r2 with
        | ':' :: r4 =>
          match parseVal fuel r4 with
          | none => none
          | some (v, r5) =>
            match skipWs r5 with
            | ',' :: r7 =>
              (parseObjItems fuel r7).map (fun p => ((String.mk k, v) :: p.1, p.2))
            | '\x7d' :: r7 => some ([(String.mk k, v)], r7)
            | _ => none
        | _ => none
    | _ => none

end

/-- json.loads: parse a complete JSON document; none models the
json.JSONDecodeError exception. -/
def json_loads (s : String) : Option J :=
  match parseVal (2 * s.length + 4) s.data with
  | some (j, r) => if (skipWs r).isEmpty then some j else none
  | none => none

example : json_loads "\x7b\x7d" = some (J.obj []) := by rfl
example : json_loads "\x7b\"a\": [1, true, null, \"x\"]\x7d" =
    some (J.obj [("a", J.arr [J.num 1, J.bool true, J.null, J.str "x"])]) := by rfl
example : json_loads "not json" = none := by rfl
example : searchDataImage (dumpsJ (J.obj [("x", J.str "data:image/png;base64,aGk=")])) =
    some "aGk=".data := by rfl

/-- Result kind of the extraction block of generate_image: the wrapping
ValueError raised when a strategy raised mid-scan (carrying the inner
exception, which appears verbatim in the Python message string), or the
ValueError raised when no strategy produced truthy bytes. -/
inductive ExtractErr where
  | couldNotExtract (inner : StratExn)
  | noImageData
deriving Repr, DecidableEq

/-- Oracle for requests.get: maps a URL to its fetched bytes or to a
transport-error message. -/
def Fetch := String → Except String (List Nat)

/-- requests.get applied to a value taken from the response; a non-string
URL argument makes requests raise, modelled as a TypeError. -/
def fetchJ (fetch : Fetch) (j : J) : Except StratExn (List Nat) :=
  match j with
  | .str u =>
    match fetch u with
    | .ok b => .ok b
    | .error m => .error (.netE m)
  | _ => .error .typeE

/-- base64.b64decode applied to a value taken from the response. -/
def b64decodeJ (j : J) : Except StratExn (List Nat) :=
  match j with
  | .str s =>
    match b64decode s with
    | some b => .ok b
    | none => .error .b64E
  | _ => .error .typeE

/-- Method 1 of generate_image: the direct data-array shape. Mirrors the
block guarded by: if data in res and res[data] is truthy, take the first
element and use its url or b64_json member. -/
def method1 (res : J) (fetch : Fetch) : Except StratExn (Option (List Nat)) := do
  let hasData ← pyContains res "data"
  if hasData then
    let d ← jIndexKey res "data"
    if truthy d then
      let item ← pyIndex0 d
      let hasUrl ← pyContains item "url"
      if hasUrl then
        let u ← jIndexKey item "url"
        let b ← fetchJ fetch u
        pure (some b)
      else
        let hasB ← pyContains item "b64_json"
        if hasB then
          let s ← jIndexKey item "b64_json"
          let b ← b64decodeJ s
          pure (some b)
        else pure none
    else pure none
  else pure none

/-- The message-content list scan of main.py: walk the items in order and
stop at the first one matching a tagged image_url item, a tagged image
item, a bare url key, or a bare b64_json key; items matching none of the
four patterns are skipped. -/
def scanItems (fetch : Fetch) : List J → Option (List Nat) → Except StratExn (Option (List Nat))
  | [], cur => pure cur
  | item :: rest, cur => do
    let t ← pyGet item "type"
    if jEqStrB t "image_url" && hasKey item "image_url" then
      let iu ← jIndexKey item "image_url"
      let u ← jIndexKey iu "url"
      let b ← fetchJ fetch u
      pure (some b)
    else if jEqStrB t "image" && hasKey item "image_b64" then
      let s ← jIndexKey item "image_b64"
      let b ← b64decodeJ s
      pure (some b)
    else
      let hasUrl ← pyContains item "url"
      if hasUrl then
        let u ← jIndexKey item "url"
        let b ← fetchJ fetch u
        pure (some b)
      else
        let hasB ← pyContains item "b64_json"
        if hasB then
          let s ← jIndexKey item "b64_json"
          let b ← b64decodeJ s
          pure (some b)
        else scanItems fetch rest cur

/-- Method 2 of main.py generate_image: read choices[0].message.content
through .get chains; a string content is treated as a data URI or a
plain URL, a list content is scanned item by item. -/
def method2main (res : J) (fetch : Fetch) (cur : Option (List Nat)) :
    Except StratExn (Option (List Nat)) := do
  let choices ← pyGetD res "choices" (J.arr [J.obj []])
  let c0 ← pyIndex0 choices
  let message ← pyGetD c0 "message" (J.obj [])
  let content ← pyGetD message "content" (J.str "")
  match content with
  | .str s =>
    if pyStartsWith s "data:image" then
      match splitFirstComma s with
      | some enc => do
        let b ← b64decodeJ (J.str enc)
        pure (some b)
      | none => .error .unpackE
    else if pyStartsWith s "http" then do
      let b ← fetchJ fetch (J.str s)
      pure (some b)
    else pure cur
  | .arr items => scanItems fetch items cur
  | _ => pure cur

/-- Method 2 of mobile_main.py generate_image: identical to the main.py
version except that it has no branch for list-valued content, which
therefore leaves img_bytes unchanged. -/
def method2mobile (res : J) (fetch : Fetch) (cur : Option (List Nat)) :
    Except StratExn (Option (List Nat)) := do
  let choices ← pyGetD res "choices" (J.arr [J.obj []])
  let c0 ← pyIndex0 choices
  let message ← pyGetD c0 "message" (J.obj [])
  let content ← pyGetD message "content" (J.str "")
  match content with
  | .str s =>
    if pyStartsWith s "data:image" then
      match splitFirstComma s with
      | some enc => do
        let b ← b64decodeJ (J.str enc)
        pure (some b)
      | none => .error .unpackE
    else if pyStartsWith s "http" then do
      let b ← fetchJ fetch (J.str s)
      pure (some b)
    else pure cur
  | _ => pure cur

/-- Method 3 of generate_image: serialize the whole response with
json.dumps and regex-search for an embedded data-image pattern, decoding
the first captured payload. -/
def method3 (res : J) (cur : Option (List Nat)) : Except StratExn (Option (List Nat)) :=
  match searchDataImage (dumpsJ res) with
  | some pay =>
    match b64decode (String.mk pay) with
    | some b => .ok (some b)
    | none => .error .b64E
  | none => .ok cur

/-- The strategy chain of main.py generate_image: each later method runs
only while img_bytes is still falsy, and any exception anywhere in the
chain aborts it. -/
def runStrategiesMain (res : J) (fetch : Fetch) : Except StratExn (Option (List Nat)) := do
  let b1 ← method1 res fetch
  let b2 ← if isTruthyBytes b1 then pure b1 else method2main res fetch b1
  if isTruthyBytes b2 then pure b2 else method3 res b2

/-- The strategy chain of mobile_main.py generate_image. -/
def runStrategiesMobile (res : J) (fetch : Fetch) : Except StratExn (Option (List Nat)) := do
  let b1 ← method1 res fetch
  let b2 ← if isTruthyBytes b1 then pure b1 else method2mobile res fetch b1
  if isTruthyBytes b2 then pure b2 else method3 res b2

/-- Image extraction of main.py generate_image, after the outer POST: a
mid-scan exception becomes the wrapping could-not-extract ValueError and
falsy final bytes become the no-image-data ValueError. -/
def extractImageMain (res : J) (fetch : Fetch) : Except ExtractErr (List Nat) :=
  match runStrategiesMain res fetch with
  | .error e => .error (.couldNotExtract e)
  | .ok b =>
    match b with
    | some (x :: xs) => .ok (x :: xs)
    | _ => .error .noImageData

/-- Image extraction of mobile_main.py generate_image. -/
def extractImageMobile (res : J) (fetch : Fetch) : Except ExtractErr (List Nat) :=
  match runStrategiesMobile res fetch with
  | .error e => .error (.couldNotExtract e)
  | .ok b =>
    match b with
    | some (x :: xs) => .ok (x :: xs)
    | _ => .error .noImageData

/-- The chat-completion envelope carrying a message content. -/
def mkEnvelope (content : J) : J :=
  .obj [("choices", .arr [.obj [("message", .obj [("content", content)])]])]

/-- Shape 1 response with a fetchable URL. -/
def mkShape1Url (u : String) : J := .obj [("data", .arr [.obj [("url", .str u)]])]

/-- Shape 1 response with an inline base64 payload. -/
def mkShape1B64 (s : String) : J := .obj [("data", .arr [.obj [("b64_json", .str s)]])]

/-- Shape 2 response: string message content. -/
def mkShape2 (s : String) : J := mkEnvelope (.str s)

/-- Shape 3 response: list message content. -/
def mkShape3 (items : List J) : J := mkEnvelope (.arr items)

/-- Shape 3 item tagged image_url. -/
def itemImageUrl (u : String) : J :=
  .obj [("type", .str "image_url"), ("image_url", .obj [("url", .str u)])]

/-- Shape 3 item tagged image with an image_b64 payload. -/
def itemImageB64 (s : String) : J := .obj [("type", .str "image"), ("image_b64", .str s)]

/-- Shape 3 item with a bare url key. -/
def itemBareUrl (u : String) : J := .obj [("url", .str u)]

/-- Shape 3 item with a bare b64_json key. -/
def itemBareB64 (s : String) : J := .obj [("b64_json", .str s)]

/-- A fetch oracle for inputs whose scan performs no fetch. -/
def fetchNone : Fetch := fun _ => .error "unreachable"

example : extractImageMain (mkShape1B64 "aGk=") fetchNone = .ok [104, 105] := by rfl
example : extractImageMain (mkShape3 [itemBareB64 "aGk="]) fetchNone = .ok [104, 105] := by rfl
example : extractImageMobile (mkShape3 [itemBareB64 "aGk="]) fetchNone =
    .error .noImageData := by rfl
example : extractImageMain (J.str "hello") fetchNone =
    .error (.couldNotExtract .attrE) := by rfl
example : extractImageMain (J.obj []) fetchNone = .error .noImageData := by rfl
example : extractImageMain (mkShape2 "data:image/png;base64,aGk=") fetchNone =
    .ok [104, 105] := by rfl
example : extractImageMain (mkShape1B64 "aGk") fetchNone =
    .error (.couldNotExtract .b64E) := by rfl
example :
    extractImageMain (mkShape1Url "http://x") (fun u => if u == "http://x" then .ok [7] else .error "e") =
    .ok [7] := by rfl
example : extractImageMain (mkShape1Url "http://x") (fun _ => .error "boom") =
    .error (.couldNotExtract (.netE "boom")) := by rfl

/-- Uncaught-exception kinds at pipeline level: requests errors (transport,
timeout or raise_for_status), the two ValueErrors of generate_image, the
json.JSONDecodeError of json.loads, the ConnectionErrors raised by the
mobile code, a file-open error, scan exceptions escaping uncaught, and the
NameError of an undefined module name. -/
inductive PyExn where
  | requestsE (msg : String)
  | valueExtractE (inner : StratExn)
  | valueNoImageE
  | jsonDecodeE
  | connE (msg : String)
  | ioE
  | stratE (e : StratExn)
  | nameE (n : String)
deriving Repr, DecidableEq

/-- Contents of one file on disk. -/
inductive FileData where
  | text (s : String)
  | bin (b : List Nat)
deriving Repr, DecidableEq

/-- The filesystem as an association list from paths to contents. -/
def FS := List (String × FileData)

/-- Write a file, overwriting any file already at the path. -/
def fsWrite (fs : FS) (p : String) (d : FileData) : FS :=
  match fs with
  | [] => [(p, d)]
  | (q, e) :: rest => if q = p then (p, d) :: rest else (q, e) :: fsWrite rest p d

/-- Read a file. -/
def fsGet : FS → String → Option FileData
  | [], _ => none
  | (q, e) :: rest, p => if q = p then some e else fsGet rest p

/-- Observable external actions of a pipeline run, beyond the filesystem:
the two generation POSTs and the three AnkiConnect RPC actions. -/
inductive Eff where
  | postTextE
  | postImageE (prompt : J)
  | rpcStoreMedia (filename : String)
  | rpcAddNote
  | rpcSync

/-- generate_flashcard_data after the POST (shared tail of both entry
points): index choices[0].message.content out of the response envelope and
json.loads it; the parsed value is returned with no further validation. -/
def generate_flashcard_data (textHttp : Except String J) : Except PyExn J :=
  match textHttp with
  | .error m => .error (.requestsE m)
  | .ok res =>
    match (do
      let choices ← jIndexKey res "choices"
      let c0 ← pyIndex0 choices
      let message ← jIndexKey c0 "message"
      jIndexKey message "content" : Except StratExn J) with
    | .error e => .error (.stratE e)
    | .ok content =>
      match content with
      | .str s =>
        match json_loads s with
        | some j => .ok j
        | none => .error .jsonDecodeE
      | _ => .error (.stratE .typeE)

/-- main.py generate_image as a pipeline stage: POST the prompt, extract
the image bytes, write them to the destination file. -/
def generate_image_run (imageHttp : Except String J) (fetch : Fetch) (filename : String)
    (fs : FS) : Except PyExn FS :=
  match imageHttp with
  | .error m => .error (.requestsE m)
  | .ok res =>
    match extractImageMain res fetch with
    | .error (.couldNotExtract e) => .error (.valueExtractE e)
    | .error .noImageData => .error .valueNoImageE
    | .ok bytes => .ok (fsWrite fs filename (.bin bytes))

/-- mobile_main.py generate_image as a pipeline stage; identical except
for the mobile extraction chain (timeouts and transport errors become
ConnectionError, folded into the oracle message). -/
def generate_image_run_mobile (imageHttp : Except String J) (fetch : Fetch) (filename : String)
    (fs : FS) : Except PyExn FS :=
  match imageHttp with
  | .error m => .error (.connE m)
  | .ok res =>
    match extractImageMobile res fetch with
    | .error (.couldNotExtract e) => .error (.valueExtractE e)
    | .error .noImageData => .error .valueNoImageE
    | .ok bytes => .ok (fsWrite fs filename (.bin bytes))

/-- Last slash-separated component of a path, as pathlib .name. -/
def baseName (p : String) : String :=
  String.mk ((p.data.reverse.takeWhile (fun c => c ≠ '/')).reverse)

/-- The check applied to every AnkiConnect response: error key present and
truthy; a non-container response makes the membership test raise. -/
def ankiRespError (resp : J) : Except StratExn Bool := do
  let h ← pyContains resp "error"
  if h then
    let v ← jIndexKey resp "error"
    pure (truthy v)
  else pure false

/-- main.py store_image_in_anki: read the image file, POST storeMediaFile,
return the namespaced filename, or None on any failure inside the try
block (all exceptions are caught there and reported as None). The file
open sits before the try, so a missing file raises. -/
def store_image_in_anki (storeHttp : Except String J) (fs : FS) (imagePath : String) :
    (Except PyExn (Option String)) × List Eff :=
  match fsGet fs imagePath with
  | none => (.error .ioE, [])
  | some _ =>
    let filename := "anki_agent_" ++ baseName imagePath
    match storeHttp with
    | .error _ => (.ok none, [.rpcStoreMedia filename])
    | .ok resp =>
      match ankiRespError resp with
      | .error _ => (.ok none, [.rpcStoreMedia filename])
      | .ok true => (.ok none, [.rpcStoreMedia filename])
      | .ok false => (.ok (some filename), [.rpcStoreMedia filename])

/-- Conversion of a field value interpolated into the f-string of the
note; the cards under study carry strings there. -/
def pyToStr : J → String
  | .str s => s
  | .num n => toString n
  | .bool b => if b then "True" else "False"
  | .null => "None"
  | j => String.mk (dumpsJ j)

/-- The note dictionary literal of main.py add_to_anki, with its direct
indexing of the six card fields in evaluation order; the first missing key
raises KeyError. -/
def buildNoteMain (card : J) (ankiImageName : String) : Except StratExn J := do
  let kanji ← jIndexKey card "kanji"
  let kana ← jIndexKey card "kana"
  let eng ← jIndexKey card "english_meaning"
  let sjp ← jIndexKey card "example_sentence_jp"
  let sen ← jIndexKey card "example_sentence_en"
  let af ← jIndexKey card "anki_format"
  let tags ← jIndexKey af "tags"
  pure (J.obj [
    ("deckName", .str "AgentDeck"),
    ("modelName", .str "Basic"),
    ("fields", .obj [
      ("Kanji", kanji), ("Kana", kana), ("English", eng), ("Sentence", sjp),
      ("Sentence (English)",
        .str (pyToStr sen ++ "<br><img src=" ++ sQuote ++ ankiImageName ++ sQuote ++ ">"))]),
    ("options", .obj [("allowDuplicate", .bool true)]),
    ("tags", tags)])

/-- Outcome of add_to_anki: returned True, returned False at one of its
distinct reported failure sites, or raised an uncaught exception. -/
inductive AddOutcome where
  | okTrue
  | falseStore
  | falseInvalid
  | falseNoFormat
  | falseAnkiErr
  | raised (e : PyExn)
deriving Repr, DecidableEq

/-- main.py add_to_anki: store the image, then validate that front and
back are non-empty after strip, then build the note and POST addNote; the
note POST and its result access are outside any try and raise on
failure. -/
def add_to_anki (card : J) (imagePath : String) (storeHttp addHttp : Except String J)
    (fs : FS) : AddOutcome × List Eff :=
  match store_image_in_anki storeHttp fs imagePath with
  | (.error e, tr) => (.raised e, tr)
  | (.ok none, tr) => (.falseStore, tr)
  | (.ok (some fn), tr) =>
    match pyGetD card "anki_format" (J.obj []) with
    | .error e => (.raised (.stratE e), tr)
    | .ok af =>
      match pyGetD af "front" (J.str "") with
      | .error e => (.raised (.stratE e), tr)
      | .ok (J.str f) =>
        match pyGetD af "back" (J.str "") with
        | .error e => (.raised (.stratE e), tr)
        | .ok (J.str b) =>
          if pyStrip f == "" || pyStrip b == "" then (.falseInvalid, tr)
          else
            match buildNoteMain card fn with
            | .error e => (.raised (.stratE e), tr)
            | .ok _note =>
              match addHttp with
              | .error m => (.raised (.requestsE m), tr ++ [.rpcAddNote])
              | .ok resp =>
                match ankiRespError resp with
                | .error e => (.raised (.stratE e), tr ++ [.rpcAddNote])
                | .ok true => (.falseAnkiErr, tr ++ [.rpcAddNote])
                | .ok false =>
                  match jIndexKey resp "result" with
                  | .error e => (.raised (.stratE e), tr ++ [.rpcAddNote])
                  | .ok _ => (.okTrue, tr ++ [.rpcAddNote])
        | .ok _ => (.raised (.stratE .attrE), tr)
      | .ok _ => (.raised (.stratE .attrE), tr)

/-- mobile_main.py store_image_in_anki: everything inside the try, with
requests errors re-raised as ConnectionError; an AnkiConnect error field
also raises ConnectionError. -/
def store_image_in_anki_mobile (storeHttp : Except String J) (fs : FS) (imagePath : String) :
    (Except PyExn String) × List Eff :=
  match fsGet fs imagePath with
  | none => (.error .ioE, [])
  | some _ =>
    let filename := "anki_agent_" ++ baseName imagePath
    match storeHttp with
    | .error m => (.error (.connE ("Failed to store image in Anki: " ++ m)),
                   [.rpcStoreMedia filename])
    | .ok resp =>
      match ankiRespError resp with
      | .error e => (.error (.stratE e), [.rpcStoreMedia filename])
      | .ok true => (.error (.connE "Anki error"), [.rpcStoreMedia filename])
      | .ok false => (.ok filename, [.rpcStoreMedia filename])

/-- mobile_main.py add_to_anki: any store exception is caught and reported
as False; the only validation before the note POST is that anki_format is
present and truthy — front and back are never inspected. -/
def add_to_anki_mobile (card : J) (imagePath : String) (storeHttp addHttp : Except String J)
    (fs : FS) : AddOutcome × List Eff :=
  match store_image_in_anki_mobile storeHttp fs imagePath with
  | (.error _, tr) => (.falseStore, tr)
  | (.ok _fn, tr) =>
    match pyGetD card "anki_format" (J.obj []) with
    | .error e => (.raised (.stratE e), tr)
    | .ok af =>
      if !truthy af then (.falseNoFormat, tr)
      else
        match pyGetD af "tags" (J.arr []) with
        | .error e => (.raised (.stratE e), tr)
        | .ok _tags =>
          match addHttp with
          | .error _ => (.falseAnkiErr, tr ++ [.rpcAddNote])
          | .ok resp =>
            match ankiRespError resp with
            | .error e => (.raised (.stratE e), tr ++ [.rpcAddNote])
            | .ok true => (.falseAnkiErr, tr ++ [.rpcAddNote])
            | .ok false => (.okTrue, tr ++ [.rpcAddNote])

/-- Terminal states of a main.py run: a full success, add_to_anki
reporting False, or an uncaught exception (which makes the interpreter
exit non-zero). -/
inductive MainOutcome where
  | success
  | addFailed
  | crashed (e : PyExn)
deriving Repr, DecidableEq

/-- The external world of one main.py run: responses of the two
generation POSTs, the URL fetcher, and the three AnkiConnect actions. An
error value models a raised requests exception for that call. -/
structure MainEnv where
  textHttp : Except String J
  imageHttp : Except String J
  fetch : Fetch
  storeHttp : Except String J
  addHttp : Except String J
  syncHttp : Except String J

/-- Path of the JSON artifact for a word. -/
def jsonPathOf (dir word : String) : String := dir ++ "/" ++ word ++ "_card.json"

/-- Path of the image artifact for a word. -/
def imgPathOf (dir word : String) : String := dir ++ "/" ++ word ++ "_image.png"

/-- The fallback image prompt built from the word. -/
def defaultPrompt (word : String) : String :=
  "illustration of " ++ sQuote ++ word ++ sQuote

/-- The serialized card artifact written by json.dump (the exact layout of
the serialization is immaterial to the claims; what matters is that the
artifact is a deterministic function of the card and is never rewritten). -/
def serializeCard (card : J) : FileData := .text (String.mk (dumpsJ card))

/-- One run of main.py main(): strip the word, generate the card, persist
the JSON, derive the prompt, generate and persist the image, push to Anki,
sync on success. Returns the terminal outcome, the final filesystem and
the trace of external actions. -/
def runMain (input : String) (dir : String) (env : MainEnv) (fs0 : FS) :
    MainOutcome × FS × List Eff :=
  let word := pyStrip input
  match generate_flashcard_data env.textHttp with
  | .error e => (.crashed e, fs0, [.postTextE])
  | .ok card =>
    let fs1 := fsWrite fs0 (jsonPathOf dir word) (serializeCard card)
    match pyGetD card "image_prompt" (J.str (defaultPrompt word)) with
    | .error e => (.crashed (.stratE e), fs1, [.postTextE])
    | .ok promptJ =>
      match generate_image_run env.imageHttp env.fetch (imgPathOf dir word) fs1 with
      | .error e => (.crashed e, fs1, [.postTextE, .postImageE promptJ])
      | .ok fs2 =>
        let ar := add_to_anki card (imgPathOf dir word) env.storeHttp env.addHttp fs2
        match ar.1 with
        | .raised e => (.crashed e, fs2, .postTextE :: .postImageE promptJ :: ar.2)
        | .okTrue =>
          match env.syncHttp with
          | .error m =>
            (.crashed (.requestsE m), fs2,
             .postTextE :: .postImageE promptJ :: (ar.2 ++ [.rpcSync]))
          | .ok _ =>
            (.success, fs2, .postTextE :: .postImageE promptJ :: (ar.2 ++ [.rpcSync]))
        | _ => (.addFailed, fs2, .postTextE :: .postImageE promptJ :: ar.2)

/-- Process exit status of a main.py run: an uncaught exception exits 1,
a normal return exits 0 — including the runs where add_to_anki reported
failure. -/
def exitCodeMain : MainOutcome → Nat
  | .crashed _ => 1
  | _ => 0

/-- Terminal states of a mobile_main.py run of mobile_main(). -/
inductive MobileOutcome where
  | emptyWord
  | success
  | addFailed
  | noAnki
  | caught (e : PyExn)
deriving Repr, DecidableEq

/-- The external world of one mobile_main.py run (mobile never syncs). -/
structure MobileEnv where
  textHttp : Except String J
  imageHttp : Except String J
  fetch : Fetch
  storeHttp : Except String J
  addHttp : Except String J

/-- One run of mobile_main(), assuming the module prelude had completed:
the body catches every exception and returns 1 for it; an add_to_anki
False is reported and the run still returns 0. -/
def runMobile (argWord : String) (noAnkiFlag : Bool) (env : MobileEnv) (fs0 : FS) :
    MobileOutcome × FS × List Eff :=
  let word := pyStrip argWord
  if word == "" then (.emptyWord, fs0, [])
  else
    let dir := "/sdcard/anki-agent"
    match generate_flashcard_data env.textHttp with
    | .error e => (.caught e, fs0, [.postTextE])
    | .ok card =>
      let fs1 := fsWrite fs0 (jsonPathOf dir word) (serializeCard card)
      match pyGetD card "image_prompt" (J.str (defaultPrompt word)) with
      | .error e => (.caught (.stratE e), fs1, [.postTextE])
      | .ok promptJ =>
        match generate_image_run_mobile env.imageHttp env.fetch (imgPathOf dir word) fs1 with
        | .error e => (.caught e, fs1, [.postTextE, .postImageE promptJ])
        | .ok fs2 =>
          if noAnkiFlag then (.noAnki, fs2, [.postTextE, .postImageE promptJ])
          else
            let ar := add_to_anki_mobile card (imgPathOf dir word) env.storeHttp env.addHttp fs2
            match ar.1 with
            | .raised e => (.caught e, fs2, .postTextE :: .postImageE promptJ :: ar.2)
            | .okTrue => (.success, fs2, .postTextE :: .postImageE promptJ :: ar.2)
            | _ => (.addFailed, fs2, .postTextE :: .postImageE promptJ :: ar.2)

/-- Process exit status of a mobile_main.py run of mobile_main(): the
return value is passed to exit(); only the caught-exception path returns
1, every other path returns 0 or None. -/
def exitCodeMobile : MobileOutcome → Nat
  | .caught _ => 1
  | _ => 0

/-- Module-load effects of mobile_main.py that the safety claim
distinguishes: environment loading and reads, the output-directory mkdir,
config file reads, network calls, file writes and argument parsing. -/
inductive MEffect where
  | envLoad
  | mkdirE (p : String)
  | envRead (k : String)
  | fileRead (p : String)
  | netCall
  | fileWrite (p : String)
  | parseArgs
deriving Repr, DecidableEq

/-- One module-level statement of mobile_main.py, abstracted to what it
defines and which effect it performs. -/
inductive TopStmt where
  | callLoadDotenv
  | assignConst (name : String)
  | callMkdir (dir : String)
  | assignGetenv (name : String) (key : String)
  | assignIndexOf (name : String) (src : String) (key : String)
  | tryLoadConfig (name : String) (path : String)
  | defFun (name : String)
  | callMobileMain

/-- The module-level statements of mobile_main.py in source order: lines
18 to 35 followed by the function definitions and the script entry call.
TEXT_MODEL and IMAGE_MODEL read CONFIG on lines 25 and 26, before the
tryLoadConfig statement on lines 29 to 35 assigns it. -/
def mobilePrelude : List TopStmt := [
  .callLoadDotenv,
  .assignConst "AGENT_DECK",
  .assignConst "OUTPUT_DIR",
  .callMkdir "/sdcard/anki-agent",
  .assignGetenv "API_KEY" "OPENROUTER_API_KEY",
  .assignIndexOf "TEXT_MODEL" "CONFIG" "text_model",
  .assignIndexOf "IMAGE_MODEL" "CONFIG" "image_model",
  .tryLoadConfig "CONFIG" "config.yaml",
  .defFun "show_progress",
  .defFun "check_connectivity",
  .defFun "generate_flashcard_data",
  .defFun "generate_image",
  .defFun "store_image_in_anki",
  .defFun "add_to_anki",
  .defFun "mobile_main",
  .callMobileMain]

/-- Execute module-level statements in order over the set of defined
names, collecting effects; referencing an undefined name stops execution
with a NameError, exactly as the Python interpreter does at import. -/
def runPrelude : List TopStmt → List String → List MEffect →
    (Except PyExn (List String)) × List MEffect
  | [], names, effs => (.ok names, effs)
  | s :: rest, names, effs =>
    match s with
    | .callLoadDotenv => runPrelude rest names (effs ++ [.envLoad])
    | .assignConst n => runPrelude rest (names ++ [n]) effs
    | .callMkdir d => runPrelude rest names (effs ++ [.mkdirE d])
    | .assignGetenv n k => runPrelude rest (names ++ [n]) (effs ++ [.envRead k])
    | .assignIndexOf n src _ =>
      if names.contains src then runPrelude rest (names ++ [n]) effs
      else (.error (.nameE src), effs)
    | .tryLoadConfig n p => runPrelude rest (names ++ [n]) (effs ++ [.fileRead p])
    | .defFun n => runPrelude rest (names ++ [n]) effs
    | .callMobileMain => runPrelude rest names (effs ++ [.parseArgs, .netCall])

/-- Names defined by the import statements at the top of mobile_main.py,
in scope before line 18. -/
def mobileInitNames : List String :=
  ["os", "json", "yaml", "requests", "base64", "sys", "load_dotenv", "Path", "argparse"]

example :
    runPrelude mobilePrelude mobileInitNames [] =
      (.error (.nameE "CONFIG"),
       [.envLoad, .mkdirE "/sdcard/anki-agent", .envRead "OPENROUTER_API_KEY"]) := by rfl

example :
    (add_to_anki (J.obj [("anki_format", J.obj [("front", J.str "x"), ("back", J.str "y")])])
      "d/w_image.png" (.ok (J.obj [("error", J.null)]))
      (.ok (J.obj [("error", J.null), ("result", J.num 1)]))
      [("d/w_image.png", .bin [1])]).1 = .raised (.stratE (.keyE "kanji")) := by rfl

/-- Claim C9: the mobile entry point reads CONFIG for text_model and
image_model at module load before CONFIG is assigned from config.yaml, so
importing or running mobile_main.py stops with an uncaught NameError
during the prelude — after only the dotenv load, the output-directory
mkdir and one environment read, hence before any network call, any file
write, and before argument parsing. -/
theorem C9_mobile_prelude_nameerror :
    runPrelude mobilePrelude mobileInitNames [] =
      (.error (.nameE "CONFIG"),
       [.envLoad, .mkdirE "/sdcard/anki-agent", .envRead "OPENROUTER_API_KEY"]) ∧
    MEffect.netCall ∉ (runPrelude mobilePrelude mobileInitNames []).2 ∧
    MEffect.parseArgs ∉ (runPrelude mobilePrelude mobileInitNames []).2 ∧
    ∀ p, MEffect.fileWrite p ∉ (runPrelude mobilePrelude mobileInitNames []).2 := by
  refine ⟨rfl, by decide, by decide, ?_⟩
  intro p
  rw [show (runPrelude mobilePrelude mobileInitNames []).2 =
      [.envLoad, .mkdirE "/sdcard/anki-agent", .envRead "OPENROUTER_API_KEY"] from rfl]
  simp

/-- Claim C10: in main.py add_to_anki, once the front and back validation
passes, the note literal indexes kanji, kana, english_meaning,
example_sentence_jp, example_sentence_en and anki_format.tags directly,
so a card missing any one of these keys makes the call raise an uncaught
KeyError naming the first missing key instead of returning a typed
failure. -/
theorem C10_note_literal_keyerror
    (kvs afkvs : List (String × J)) (f b fn imagePath : String) (tr : List Eff)
    (storeHttp addHttp : Except String J) (fs : FS)
    (hstore : store_image_in_anki storeHttp fs imagePath = (.ok (some fn), tr))
    (haf : jLookup kvs "anki_format" = some (J.obj afkvs))
    (hf : jLookup afkvs "front" = some (J.str f))
    (hb : jLookup afkvs "back" = some (J.str b))
    (hfne : pyStrip f ≠ "") (hbne : pyStrip b ≠ "") :
    (∀ e, buildNoteMain (J.obj kvs) fn = .error e →
      (add_to_anki (J.obj kvs) imagePath storeHttp addHttp fs).1 = .raised (.stratE e)) ∧
    (jLookup kvs "kanji" = none →
      buildNoteMain (J.obj kvs) fn = .error (.keyE "kanji")) ∧
    (∀ v1, jLookup kvs "kanji" = some v1 → jLookup kvs "kana" = none →
      buildNoteMain (J.obj kvs) fn = .error (.keyE "kana")) ∧
    (∀ v1 v2, jLookup kvs "kanji" = some v1 → jLookup kvs "kana" = some v2 →
      jLookup kvs "english_meaning" = none →
      buildNoteMain (J.obj kvs) fn = .error (.keyE "english_meaning")) ∧
    (∀ v1 v2 v3, jLookup kvs "kanji" = some v1 → jLookup kvs "kana" = some v2 →
      jLookup kvs "english_meaning" = some v3 → jLookup kvs "example_sentence_jp" = none →
      buildNoteMain (J.obj kvs) fn = .error (.keyE "example_sentence_jp")) ∧
    (∀ v1 v2 v3 v4, jLookup kvs "kanji" = some v1 → jLookup kvs "kana" = some v2 →
      jLookup kvs "english_meaning" = some v3 → jLookup kvs "example_sentence_jp" = some v4 →
      jLookup kvs "example_sentence_en" = none →
      buildNoteMain (J.obj kvs) fn = .error (.keyE "example_sentence_en")) ∧
    (∀ v1 v2 v3 v4 v5, jLookup kvs "kanji" = some v1 → jLookup kvs "kana" = some v2 →
      jLookup kvs "english_meaning" = some v3 → jLookup kvs "example_sentence_jp" = some v4 →
      jLookup kvs "example_sentence_en" = some v5 → jLookup afkvs "tags" = none →
      buildNoteMain (J.obj kvs) fn = .error (.keyE "tags")) := by
  have hfb : (pyStrip f == "") = false := beq_eq_false_iff_ne.mpr hfne
  have hbb : (pyStrip b == "") = false := beq_eq_false_iff_ne.mpr hbne
  refine ⟨?_, ?_, ?_, ?_, ?_, ?_, ?_⟩
  · intro e he
    unfold add_to_anki
    rw [hstore]
    simp [pyGetD, haf, hf, hb, hfb, hbb, he]
  · intro h1
    simp only [buildNoteMain, jIndexKey, h1]
    rfl
  · intro v1 h1 h2
    simp only [buildNoteMain, jIndexKey, h1, h2]
    rfl
  · intro v1 v2 h1 h2 h3
    simp only [buildNoteMain, jIndexKey, h1, h2, h3]
    rfl
  · intro v1 v2 v3 h1 h2 h3 h4
    simp only [buildNoteMain, jIndexKey, h1, h2, h3, h4]
    rfl
  · intro v1 v2 v3 v4 h1 h2 h3 h4 h5
    simp only [buildNoteMain, jIndexKey, h1, h2, h3, h4, h5]
    rfl
  · intro v1 v2 v3 v4 v5 h1 h2 h3 h4 h5 h6
    simp only [buildNoteMain, jIndexKey, h1, h2, h3, h4, h5, haf, Bind.bind, Except.bind, h6]

/-- Witness for C10: a concrete card that passes front and back validation
but has no kanji key makes add_to_anki raise KeyError kanji. -/
theorem C10_note_literal_keyerror_witness :
    jLookup [("anki_format", J.obj [("front", J.str "x"), ("back", J.str "y")])] "kanji" = none ∧
    (add_to_anki (J.obj [("anki_format", J.obj [("front", J.str "x"), ("back", J.str "y")])])
      "d/w_image.png" (.ok (J.obj [("error", J.null)])) (.ok (J.obj []))
      [("d/w_image.png", .bin [1])]).1 = .raised (.stratE (.keyE "kanji")) := by
  have h := C10_note_literal_keyerror
    [("anki_format", J.obj [("front", J.str "x"), ("back", J.str "y")])]
    [("front", J.str "x"), ("back", J.str "y")] "x" "y" "anki_agent_w_image.png"
    "d/w_image.png" [.rpcStoreMedia "anki_agent_w_image.png"]
    (.ok (J.obj [("error", J.null)])) (.ok (J.obj [])) [("d/w_image.png", .bin [1])]
    rfl rfl rfl rfl (by decide) (by decide)
  exact ⟨rfl, h.1 _ (h.2.1 rfl)⟩

/-- Reading back the path just written returns the written contents. -/
theorem fsGet_fsWrite (fs : FS) (p : String) (d : FileData) :
    fsGet (fsWrite fs p d) p = some d := by
  induction fs with
  | nil => simp [fsWrite, fsGet]
  | cons hd tl ih =>
    obtain ⟨q, e⟩ := hd
    by_cases h : q = p <;> simp [fsWrite, fsGet, h, ih]

/-- Claim C7: when content generation succeeds and the JSON artifact has
been persisted, a failure of the image-generation stage (of any kind,
timeouts included) halts the run with that exception and leaves the
filesystem exactly as it was after the JSON write; in particular the JSON
artifact is still present with the written content — nothing is rolled
back. -/
theorem C7_json_artifact_retained
    (input dir : String) (env : MainEnv) (fs0 : FS) (card promptJ : J) (e : PyExn)
    (hgen : generate_flashcard_data env.textHttp = .ok card)
    (hp : pyGetD card "image_prompt" (J.str (defaultPrompt (pyStrip input))) = .ok promptJ)
    (himg : generate_image_run env.imageHttp env.fetch (imgPathOf dir (pyStrip input))
      (fsWrite fs0 (jsonPathOf dir (pyStrip input)) (serializeCard card)) = .error e) :
    (runMain input dir env fs0).1 = .crashed e ∧
    (runMain input dir env fs0).2.1 =
      fsWrite fs0 (jsonPathOf dir (pyStrip input)) (serializeCard card) ∧
    fsGet (runMain input dir env fs0).2.1 (jsonPathOf dir (pyStrip input)) =
      some (serializeCard card) := by
  have hrun : runMain input dir env fs0 =
      (.crashed e, fsWrite fs0 (jsonPathOf dir (pyStrip input)) (serializeCard card),
       [.postTextE, .postImageE promptJ]) := by
    simp only [runMain, hgen, hp, himg]
  refine ⟨by rw [hrun], by rw [hrun], ?_⟩
  rw [hrun]
  exact fsGet_fsWrite fs0 _ _

/-- Environment of the C7 witness run: the text endpoint returns a minimal
valid card and the image POST raises a timeout. -/
def envC7 : MainEnv :=
  ⟨.ok (mkEnvelope (J.str "\x7b\x7d")), .error "timed out", fetchNone,
   .ok (J.obj []), .ok (J.obj []), .ok (J.obj [])⟩

/-- Witness for C7: a concrete run whose image stage times out crashes at
that stage and the JSON artifact of the card is still on disk. -/
theorem C7_json_artifact_retained_witness :
    generate_flashcard_data envC7.textHttp = .ok (J.obj []) ∧
    (runMain "w" "out" envC7 []).1 = .crashed (.requestsE "timed out") ∧
    fsGet (runMain "w" "out" envC7 []).2.1 (jsonPathOf "out" "w") =
      some (serializeCard (J.obj [])) := by
  have h := C7_json_artifact_retained "w" "out" envC7 [] (J.obj [])
    (J.str (defaultPrompt "w")) (.requestsE "timed out") rfl rfl rfl
  exact ⟨rfl, h.1, h.2.2⟩

/-- Claim C6 (amended): the prompt POSTed to the image endpoint is exactly
the value of image_prompt whenever that key is present — including a
present-but-empty value, which is used as-is — and is the default
illustration prompt only when the key is absent. -/
theorem C6_image_prompt_amended
    (input dir : String) (env : MainEnv) (fs0 : FS) (kvs : List (String × J))
    (hgen : generate_flashcard_data env.textHttp = .ok (J.obj kvs)) :
    (∀ v, jLookup kvs "image_prompt" = some v →
      Eff.postImageE v ∈ (runMain input dir env fs0).2.2) ∧
    (jLookup kvs "image_prompt" = none →
      Eff.postImageE (J.str (defaultPrompt (pyStrip input))) ∈ (runMain input dir env fs0).2.2) := by
  constructor
  · intro v hv
    simp only [runMain, hgen, pyGetD, hv]
    split
    · simp
    · split <;> first | simp | (split <;> simp)
  · intro hn
    simp only [runMain, hgen, pyGetD, hn]
    split
    · simp
    · split <;> first | simp | (split <;> simp)

/-- Environment of the C6 counterexample run: the generated card carries a
present-but-empty image_prompt. -/
def envC6 : MainEnv :=
  ⟨.ok (mkEnvelope (J.str "\x7b\"image_prompt\": \"\"\x7d")), .error "t", fetchNone,
   .ok (J.obj []), .ok (J.obj []), .ok (J.obj [])⟩

/-- Counterexample to C6 as stated: with image_prompt present but empty,
the prompt POSTed to the image endpoint is the empty string, not the
default illustration prompt that the claim requires for this case. -/
theorem C6_counterexample_empty_prompt :
    (runMain "w" "out" envC6 []).2.2 = [.postTextE, .postImageE (J.str "")] ∧
    J.str "" ≠ J.str (defaultPrompt "w") := by
  refine ⟨rfl, ?_⟩
  intro h
  injection h with h2
  exact absurd h2 (by decide)

/-- Environment of the C6 witness run with a present, non-empty
image_prompt. -/
def envC6w : MainEnv :=
  ⟨.ok (mkEnvelope (J.str "\x7b\"image_prompt\": \"a cat\"\x7d")), .error "t", fetchNone,
   .ok (J.obj []), .ok (J.obj []), .ok (J.obj [])⟩

/-- Witness for C6: a present non-empty image_prompt is POSTed verbatim,
and an absent image_prompt yields the default prompt. -/
theorem C6_image_prompt_amended_witness :
    jLookup [("image_prompt", J.str "a cat")] "image_prompt" = some (J.str "a cat") ∧
    Eff.postImageE (J.str "a cat") ∈ (runMain "w" "out" envC6w []).2.2 ∧
    Eff.postImageE (J.str (defaultPrompt "w")) ∈ (runMain "w" "out" envC7 []).2.2 := by
  refine ⟨rfl, ?_, ?_⟩
  · exact (C6_image_prompt_amended "w" "out" envC6w [] [("image_prompt", J.str "a cat")] rfl).1
      (J.str "a cat") rfl
  · exact (C6_image_prompt_amended "w" "out" envC7 [] [] rfl).2 rfl

/-- Claim C5 (amended): the content generator parses
choices[0].message.content with json.loads and fails with the JSON decode
error when the content is not valid JSON; but it performs no ankiFormat
check — whatever value parses is returned as the card, so a call can
return successfully with a record lacking ankiFormat. -/
theorem C5_parse_amended (s : String) :
    (∀ j, json_loads s = some j →
      generate_flashcard_data (.ok (mkEnvelope (.str s))) = .ok j) ∧
    (json_loads s = none →
      generate_flashcard_data (.ok (mkEnvelope (.str s))) = .error .jsonDecodeE) ∧
    (generate_flashcard_data (.ok (mkEnvelope (.str "\x7b\x7d"))) = .ok (J.obj []) ∧
      hasKey (J.obj []) "anki_format" = false) := by
  have hred : generate_flashcard_data (.ok (mkEnvelope (.str s))) =
      (match json_loads s with
       | some j => .ok j
       | none => .error .jsonDecodeE) := rfl
  refine ⟨?_, ?_, rfl, rfl⟩
  · intro j hj
    rw [hred, hj]
  · intro hn
    rw [hred, hn]

/-- Witness for C5: a concrete valid-JSON content is returned parsed, and
a concrete non-JSON content fails with the decode error. -/
theorem C5_parse_amended_witness :
    json_loads "\x7b\"a\": 1\x7d" = some (J.obj [("a", J.num 1)]) ∧
    generate_flashcard_data (.ok (mkEnvelope (.str "\x7b\"a\": 1\x7d"))) =
      .ok (J.obj [("a", J.num 1)]) ∧
    json_loads "nope" = none ∧
    generate_flashcard_data (.ok (mkEnvelope (.str "nope"))) = .error .jsonDecodeE := by
  exact ⟨rfl, (C5_parse_amended "\x7b\"a\": 1\x7d").1 _ rfl, rfl,
    (C5_parse_amended "nope").2.1 rfl⟩

/-- Counterexample to C5 as stated: the empty JSON object parses and is
returned as a successful card even though it has no ankiFormat member, so
a generate call can return successfully with a record lacking
ankiFormat. -/
theorem C5_counterexample_missing_ankiformat :
    generate_flashcard_data (.ok (mkEnvelope (.str "\x7b\x7d"))) = .ok (J.obj []) ∧
    hasKey (J.obj []) "anki_format" = false := ⟨rfl, rfl⟩

/-- The storeMediaFile helper of main.py never issues the addNote RPC. -/
theorem store_trace_no_addnote (sh : Except String J) (fs : FS) (p : String) :
    Eff.rpcAddNote ∉ (store_image_in_anki sh fs p).2 := by
  unfold store_image_in_anki
  split
  · simp
  · split
    · simp
    · split <;> simp

/-- Claim C2 (amended): for a card whose ankiFormat.front is whitespace
only, main.py add_to_anki returns the invalid-card failure after media
upload and before any addNote RPC; but mobile_main.py add_to_anki checks
only that ankiFormat is present and truthy, and issues the addNote RPC
even for such a record. -/
theorem C2_front_validation_amended
    (kvs afkvs : List (String × J)) (f b imagePath fnM : String) (trM : List Eff)
    (storeHttp addHttp storeHttpM addHttpM : Except String J) (fs fsM : FS) (fn : String)
    (tr : List Eff)
    (hstore : store_image_in_anki storeHttp fs imagePath = (.ok (some fn), tr))
    (haf : jLookup kvs "anki_format" = some (J.obj afkvs))
    (hf : jLookup afkvs "front" = some (J.str f))
    (hb : jLookup afkvs "back" = some (J.str b))
    (hfe : pyStrip f = "")
    (hstoreM : store_image_in_anki_mobile storeHttpM fsM imagePath = (.ok fnM, trM)) :
    (add_to_anki (J.obj kvs) imagePath storeHttp addHttp fs).1 = .falseInvalid ∧
    Eff.rpcAddNote ∉ (add_to_anki (J.obj kvs) imagePath storeHttp addHttp fs).2 ∧
    Eff.rpcAddNote ∈ (add_to_anki_mobile (J.obj kvs) imagePath storeHttpM addHttpM fsM).2 := by
  have hafne : afkvs ≠ [] := by
    intro hnil
    rw [hnil] at hf
    simp [jLookup] at hf
  have hadd : add_to_anki (J.obj kvs) imagePath storeHttp addHttp fs = (.falseInvalid, tr) := by
    unfold add_to_anki
    rw [hstore]
    simp [pyGetD, haf, hf, hb, hfe]
  refine ⟨by rw [hadd], ?_, ?_⟩
  · rw [hadd]
    have h2 := store_trace_no_addnote storeHttp fs imagePath
    rw [hstore] at h2
    exact h2
  · unfold add_to_anki_mobile
    rw [hstoreM]
    have hntr : (!truthy (J.obj afkvs)) = false := by
      simp [truthy, List.isEmpty_eq_true, hafne]
    cases htag : jLookup afkvs "tags" <;>
        simp only [pyGetD, haf, hntr, htag, Bool.false_eq_true, if_false] <;>
        (split <;> first | simp | (split <;> simp))

/-- The ankiFormat object of the C2 counterexample card: whitespace-only
front. -/
def afC2 : List (String × J) :=
  [("front", J.str "  "), ("back", J.str "b"), ("tags", J.arr [])]

/-- The C2 counterexample card record. -/
def cardC2 : J := J.obj [("anki_format", J.obj afC2)]

/-- Counterexample to C2 as stated: on the mobile entry point, a card with
whitespace-only front reaches the addNote RPC (and the stage even reports
success) — the note-creation stage does not fail with InvalidCardData
before the remote call. -/
theorem C2_counterexample_mobile_addnote :
    pyStrip "  " = "" ∧
    (add_to_anki_mobile cardC2 "d/w_image.png" (.ok (J.obj [("error", J.null)]))
      (.ok (J.obj [("error", J.null), ("result", J.num 1)]))
      [("d/w_image.png", .bin [1])]).2 =
      [.rpcStoreMedia "anki_agent_w_image.png", .rpcAddNote] ∧
    (add_to_anki_mobile cardC2 "d/w_image.png" (.ok (J.obj [("error", J.null)]))
      (.ok (J.obj [("error", J.null), ("result", J.num 1)]))
      [("d/w_image.png", .bin [1])]).1 = .okTrue := ⟨rfl, rfl, rfl⟩

/-- Witness for C2: the concrete whitespace-front card is rejected before
addNote by main.py and still reaches addNote on mobile_main.py. -/
theorem C2_front_validation_amended_witness :
    pyStrip "  " = "" ∧
    (add_to_anki cardC2 "d/w_image.png" (.ok (J.obj [("error", J.null)]))
      (.ok (J.obj [])) [("d/w_image.png", .bin [1])]).1 = .falseInvalid ∧
    Eff.rpcAddNote ∉ (add_to_anki cardC2 "d/w_image.png" (.ok (J.obj [("error", J.null)]))
      (.ok (J.obj [])) [("d/w_image.png", .bin [1])]).2 ∧
    Eff.rpcAddNote ∈ (add_to_anki_mobile cardC2 "d/w_image.png"
      (.ok (J.obj [("error", J.null)])) (.ok (J.obj []))
      [("d/w_image.png", .bin [1])]).2 := by
  have h := C2_front_validation_amended
    [("anki_format", J.obj afC2)] afC2 "  " "b" "d/w_image.png" "anki_agent_w_image.png"
    [.rpcStoreMedia "anki_agent_w_image.png"]
    (.ok (J.obj [("error", J.null)])) (.ok (J.obj []))
    (.ok (J.obj [("error", J.null)])) (.ok (J.obj []))
    [("d/w_image.png", .bin [1])] [("d/w_image.png", .bin [1])]
    "anki_agent_w_image.png" [.rpcStoreMedia "anki_agent_w_image.png"]
    rfl rfl rfl rfl rfl rfl
  exact ⟨rfl, h.1, h.2.1, h.2.2⟩

/-- The message content of the C8 runs: a complete card with every field
the note literal indexes and non-empty front and back. -/
def cardJsonC8 : String :=
  "\x7b\"kanji\": \"a\", \"kana\": \"b\", \"english_meaning\": \"c\", \"example_sentence_jp\": \"d\", \"example_sentence_en\": \"e\", \"anki_format\": \x7b\"front\": \"f\", \"back\": \"g\", \"tags\": []\x7d, \"image_prompt\": \"p\"\x7d"

/-- Fully successful environment: every call answers well. -/
def envC8ok : MainEnv :=
  ⟨.ok (mkEnvelope (J.str cardJsonC8)), .ok (mkShape1B64 "aGk="), fetchNone,
   .ok (J.obj [("error", J.null)]), .ok (J.obj [("error", J.null), ("result", J.num 1)]),
   .ok (J.obj [])⟩

/-- Environment whose storeMediaFile action reports an error. -/
def envC8store : MainEnv :=
  ⟨.ok (mkEnvelope (J.str cardJsonC8)), .ok (mkShape1B64 "aGk="), fetchNone,
   .ok (J.obj [("error", J.str "boom")]), .ok (J.obj []), .ok (J.obj [])⟩

/-- Environment whose text-generation POST raises. -/
def envC8crash : MainEnv :=
  ⟨.error "down", .error "down", fetchNone, .ok (J.obj []), .ok (J.obj []), .ok (J.obj [])⟩

/-- Mobile environment whose storeMediaFile action reports an error. -/
def envM8store : MobileEnv :=
  ⟨.ok (mkEnvelope (J.str cardJsonC8)), .ok (mkShape1B64 "aGk="), fetchNone,
   .ok (J.obj [("error", J.str "boom")]), .ok (J.obj [])⟩

/-- Mobile environment whose text-generation POST raises. -/
def envM8crash : MobileEnv :=
  ⟨.error "down", .error "down", fetchNone, .ok (J.obj []), .ok (J.obj [])⟩

/-- Claim C8 (amended): a fully successful pipeline exits 0 and an
uncaught (resp. caught, on mobile) exception in a stage exits 1; but a
reported failure of the media-store or note-creation step makes
add_to_anki return False, which both entry points report and then exit 0,
not non-zero. -/
theorem C8_exit_codes_amended :
    (runMain "w" "out" envC8ok []).1 = .success ∧
    exitCodeMain (runMain "w" "out" envC8ok []).1 = 0 ∧
    (∀ input dir env fs0 e, (runMain input dir env fs0).1 = .crashed e →
      exitCodeMain (runMain input dir env fs0).1 = 1) ∧
    (runMain "w" "out" envC8store []).1 = .addFailed ∧
    exitCodeMain (runMain "w" "out" envC8store []).1 = 0 ∧
    (∀ w na env fs0 e, (runMobile w na env fs0).1 = .caught e →
      exitCodeMobile (runMobile w na env fs0).1 = 1) ∧
    (runMobile "w" false envM8store []).1 = .addFailed ∧
    exitCodeMobile (runMobile "w" false envM8store []).1 = 0 := by
  refine ⟨rfl, rfl, ?_, rfl, rfl, ?_, rfl, rfl⟩
  · intro input dir env fs0 e he
    rw [he]
    rfl
  · intro w na env fs0 e he
    rw [he]
    rfl

/-- Witness for C8: concrete crashing runs of both entry points exit 1. -/
theorem C8_exit_codes_amended_witness :
    (runMain "w" "out" envC8crash []).1 = .crashed (.requestsE "down") ∧
    exitCodeMain (runMain "w" "out" envC8crash []).1 = 1 ∧
    (runMobile "w" false envM8crash []).1 = .caught (.requestsE "down") ∧
    exitCodeMobile (runMobile "w" false envM8crash []).1 = 1 := by
  refine ⟨rfl, ?_, rfl, ?_⟩
  · exact C8_exit_codes_amended.2.2.1 "w" "out" envC8crash [] _ rfl
  · exact C8_exit_codes_amended.2.2.2.2.2.1 "w" false envM8crash [] _ rfl

/-- Counterexample to C8 as stated: a run whose media-store action fails
(a stage failure, reported to the operator) still exits with status 0. -/
theorem C8_counterexample_addfail_exit_zero :
    (runMain "w" "out" envC8store []).1 = .addFailed ∧
    exitCodeMain (runMain "w" "out" envC8store []).1 = 0 := ⟨rfl, rfl⟩

/-- Claim C4 (amended): whenever the strategy chain completes without
raising and yields no truthy byte string, extraction fails with exactly
the no-image-data error; and whenever the chain itself raises, extraction
fails with the wrapping could-not-extract error instead — so the
exactly-NoImageData guarantee holds only for responses the scan can
traverse without an exception. -/
theorem C4_noimagedata_amended :
    (∀ res fetch b, runStrategiesMain res fetch = .ok b → isTruthyBytes b = false →
      extractImageMain res fetch = .error .noImageData) ∧
    (∀ fetch, extractImageMain (J.obj []) fetch = .error .noImageData) ∧
    (∀ res fetch e, runStrategiesMain res fetch = .error e →
      extractImageMain res fetch = .error (.couldNotExtract e)) := by
  refine ⟨?_, ?_, ?_⟩
  · intro res fetch b h hb
    unfold extractImageMain
    rw [h]
    cases b with
    | none => rfl
    | some l =>
      cases l with
      | nil => rfl
      | cons x xs => simp [isTruthyBytes] at hb
  · intro fetch
    rfl
  · intro res fetch e h
    unfold extractImageMain
    rw [h]

/-- Witness for C4: a concrete envelope whose content is plain prose is
scanned to completion with no bytes and fails with exactly the
no-image-data error. -/
theorem C4_noimagedata_amended_witness :
    runStrategiesMain (mkEnvelope (J.str "no image here")) fetchNone = .ok none ∧
    isTruthyBytes none = false ∧
    extractImageMain (mkEnvelope (J.str "no image here")) fetchNone =
      .error .noImageData := by
  refine ⟨rfl, rfl, ?_⟩
  exact C4_noimagedata_amended.1 (mkEnvelope (J.str "no image here")) fetchNone none rfl rfl

/-- Counterexample to C4 as stated: a bare-string JSON response carries no
recognizable image data, yet extraction fails with the wrapping
could-not-extract error (the .get scan raises AttributeError on a
non-object), not with NoImageData. -/
theorem C4_counterexample_string_response :
    extractImageMain (J.str "hello") fetchNone = .error (.couldNotExtract .attrE) ∧
    ExtractErr.couldNotExtract .attrE ≠ ExtractErr.noImageData := ⟨rfl, by decide⟩

/-- Claim C3: a URL located by a strategy whose fetch raises a transport
error makes extraction fail immediately with the network failure wrapped
in the extraction error (no fall-through to later strategies or later
list items), a located base64 payload that fails to decode makes it fail
with the wrapped base64 failure, and the two wrapped kinds and the
no-image-data kind are pairwise distinct values at the caller. -/
theorem C3_fetch_and_decode_failures (u s msg : String) (rest : List J) (fetch : Fetch) :
    (fetch u = .error msg →
      extractImageMain (mkShape1Url u) fetch = .error (.couldNotExtract (.netE msg))) ∧
    (b64decode s = none →
      extractImageMain (mkShape1B64 s) fetch = .error (.couldNotExtract .b64E)) ∧
    (fetch u = .error msg →
      extractImageMain (mkShape3 (itemBareUrl u :: rest)) fetch =
        .error (.couldNotExtract (.netE msg))) ∧
    (pyStartsWith u "data:image" = false → pyStartsWith u "http" = true →
      fetch u = .error msg →
      extractImageMain (mkShape2 u) fetch = .error (.couldNotExtract (.netE msg))) ∧
    (fetch u = .error msg →
      extractImageMobile (mkShape1Url u) fetch = .error (.couldNotExtract (.netE msg))) ∧
    (∀ m, ExtractErr.couldNotExtract (.netE m) ≠ ExtractErr.couldNotExtract .b64E) ∧
    (∀ m, ExtractErr.couldNotExtract (.netE m) ≠ ExtractErr.noImageData) ∧
    ExtractErr.couldNotExtract .b64E ≠ ExtractErr.noImageData := by
  refine ⟨?_, ?_, ?_, ?_, ?_, ?_, ?_, ?_⟩
  · intro h
    simp [extractImageMain, runStrategiesMain, method1, mkShape1Url, pyContains, jLookup,
      truthy, pyIndex0, jIndexKey, fetchJ, h, Bind.bind, Except.bind, Functor.map,
      Except.map, pure, Except.pure, isTruthyBytes]
  · intro h
    simp [extractImageMain, runStrategiesMain, method1, mkShape1B64, pyContains, jLookup,
      truthy, pyIndex0, jIndexKey, b64decodeJ, h, Bind.bind, Except.bind, Functor.map,
      Except.map, pure, Except.pure, isTruthyBytes]
  · intro h
    simp [extractImageMain, runStrategiesMain, method1, method2main, scanItems, mkShape3,
      mkEnvelope, itemBareUrl, pyContains, pyGetD, pyGet, jLookup, truthy, pyIndex0,
      jIndexKey, jEqStrB, hasKey, fetchJ, h, Bind.bind, Except.bind, Functor.map,
      Except.map, pure, Except.pure, isTruthyBytes]
  · intro h1 h2 h3
    simp [extractImageMain, runStrategiesMain, method1, method2main, mkShape2, mkEnvelope,
      pyContains, pyGetD, jLookup, pyIndex0, h1, h2, fetchJ, h3, Bind.bind, Except.bind,
      Functor.map, Except.map, pure, Except.pure, isTruthyBytes]
  · intro h
    simp [extractImageMobile, runStrategiesMobile, method1, mkShape1Url, pyContains, jLookup,
      truthy, pyIndex0, jIndexKey, fetchJ, h, Bind.bind, Except.bind, Functor.map,
      Except.map, pure, Except.pure, isTruthyBytes]
  · intro m h
    injection h with h2
    cases h2
  · intro m h
    cases h
  · intro h
    cases h

/-- A fetch oracle that always raises a transport error. -/
def fetchBoom : Fetch := fun _ => .error "boom"

/-- Witness for C3: concrete fetch and decode failures produce the two
wrapped error kinds at concrete inputs. -/
theorem C3_fetch_and_decode_failures_witness :
    fetchBoom "http://img" = .error "boom" ∧
    extractImageMain (mkShape1Url "http://img") fetchBoom =
      .error (.couldNotExtract (.netE "boom")) ∧
    b64decode "aGk" = none ∧
    extractImageMain (mkShape1B64 "aGk") fetchBoom = .error (.couldNotExtract .b64E) ∧
    extractImageMain (mkShape3 [itemBareUrl "http://img"]) fetchBoom =
      .error (.couldNotExtract (.netE "boom")) := by
  have h := C3_fetch_and_decode_failures "http://img" "aGk" "boom" [] fetchBoom
  exact ⟨rfl, h.1 rfl, rfl, h.2.1 rfl, h.2.2.1 rfl⟩

/-- Claim C1 (amended): the main.py extractor handles all four documented
response shapes with the strategies in priority order — direct-data array
first, then string message content (data URI, then plain URL), then list
message content scanned in order stopping at the first of the four item
patterns and skipping non-matching items, then the embedded-pattern regex
fallback — and a shape-3 input is never misclassified by an earlier
strategy; but the mobile_main.py extractor has no message-content-list
branch at all: a shape-3 input falls through to the regex fallback and,
when the serialized response contains no embedded data-image pattern,
fails with NoImageData instead of the payload. -/
theorem C1_shape_handling_amended (u s enc : String) (x : Nat) (xs : List Nat)
    (items rest : List J) (fetch : Fetch) :
    (fetch u = .ok (x :: xs) →
      extractImageMain (mkShape1Url u) fetch = .ok (x :: xs)) ∧
    (b64decode s = some (x :: xs) →
      extractImageMain (mkShape1B64 s) fetch = .ok (x :: xs)) ∧
    (pyStartsWith s "data:image" = true → splitFirstComma s = some enc →
      b64decode enc = some (x :: xs) →
      extractImageMain (mkShape2 s) fetch = .ok (x :: xs)) ∧
    (pyStartsWith s "data:image" = false → pyStartsWith s "http" = true →
      fetch s = .ok (x :: xs) →
      extractImageMain (mkShape2 s) fetch = .ok (x :: xs)) ∧
    (fetch u = .ok (x :: xs) →
      extractImageMain (mkShape3 (itemImageUrl u :: rest)) fetch = .ok (x :: xs)) ∧
    (b64decode s = some (x :: xs) →
      extractImageMain (mkShape3 (itemImageB64 s :: rest)) fetch = .ok (x :: xs)) ∧
    (fetch u = .ok (x :: xs) →
      extractImageMain (mkShape3 (itemBareUrl u :: rest)) fetch = .ok (x :: xs)) ∧
    (b64decode s = some (x :: xs) →
      extractImageMain (mkShape3 (itemBareB64 s :: rest)) fetch = .ok (x :: xs)) ∧
    (scanItems fetch (J.obj [("note", J.str "n")] :: items) none =
      scanItems fetch items none) ∧
    (extractImageMain (J.obj [("x", J.str "data:image/png;base64,aGk=")]) fetch =
      .ok [104, 105]) ∧
    (searchDataImage (dumpsJ (mkShape3 [itemBareB64 s])) = none →
      extractImageMobile (mkShape3 [itemBareB64 s]) fetch = .error .noImageData) := by
  refine ⟨?_, ?_, ?_, ?_, ?_, ?_, ?_, ?_, ?_, ?_, ?_⟩
  · intro h
    simp [extractImageMain, runStrategiesMain, method1, mkShape1Url, pyContains, jLookup,
      truthy, pyIndex0, jIndexKey, fetchJ, h, Bind.bind, Except.bind, Functor.map,
      Except.map, pure, Except.pure, isTruthyBytes]
  · intro h
    simp [extractImageMain, runStrategiesMain, method1, mkShape1B64, pyContains, jLookup,
      truthy, pyIndex0, jIndexKey, b64decodeJ, h, Bind.bind, Except.bind, Functor.map,
      Except.map, pure, Except.pure, isTruthyBytes]
  · intro h1 h2 h3
    simp [extractImageMain, runStrategiesMain, method1, method2main, mkShape2, mkEnvelope,
      pyContains, pyGetD, jLookup, pyIndex0, h1, h2, h3, b64decodeJ, Bind.bind, Except.bind,
      Functor.map, Except.map, pure, Except.pure, isTruthyBytes]
  · intro h1 h2 h3
    simp [extractImageMain, runStrategiesMain, method1, method2main, mkShape2, mkEnvelope,
      pyContains, pyGetD, jLookup, pyIndex0, h1, h2, fetchJ, h3, Bind.bind, Except.bind,
      Functor.map, Except.map, pure, Except.pure, isTruthyBytes]
  · intro h
    simp [extractImageMain, runStrategiesMain, method1, method2main, scanItems, mkShape3,
      mkEnvelope, itemImageUrl, pyContains, pyGetD, pyGet, jLookup, truthy, pyIndex0,
      jIndexKey, jEqStrB, hasKey, fetchJ, h, Bind.bind, Except.bind, Functor.map,
      Except.map, pure, Except.pure, isTruthyBytes]
  · intro h
    simp [extractImageMain, runStrategiesMain, method1, method2main, scanItems, mkShape3,
      mkEnvelope, itemImageB64, pyContains, pyGetD, pyGet, jLookup, truthy, pyIndex0,
      jIndexKey, jEqStrB, hasKey, b64decodeJ, h, Bind.bind, Except.bind, Functor.map,
      Except.map, pure, Except.pure, isTruthyBytes]
  · intro h
    simp [extractImageMain, runStrategiesMain, method1, method2main, scanItems, mkShape3,
      mkEnvelope, itemBareUrl, pyContains, pyGetD, pyGet, jLookup, truthy, pyIndex0,
      jIndexKey, jEqStrB, hasKey, fetchJ, h, Bind.bind, Except.bind, Functor.map,
      Except.map, pure, Except.pure, isTruthyBytes]
  · intro h
    simp [extractImageMain, runStrategiesMain, method1, method2main, scanItems, mkShape3,
      mkEnvelope, itemBareB64, pyContains, pyGetD, pyGet, jLookup, truthy, pyIndex0,
      jIndexKey, jEqStrB, hasKey, b64decodeJ, h, Bind.bind, Except.bind, Functor.map,
      Except.map, pure, Except.pure, isTruthyBytes]
  · simp [scanItems, pyGet, pyGetD, jLookup, jEqStrB, hasKey, pyContains, Bind.bind,
      Except.bind, pure, Except.pure]
  · rfl
  · intro h
    simp only [mkShape3, mkEnvelope, itemBareB64] at h
    simp [extractImageMobile, runStrategiesMobile, method1, method2mobile, method3,
      mkShape3, mkEnvelope, itemBareB64, pyContains, pyGetD, jLookup, pyIndex0, h,
      Bind.bind, Except.bind, pure, Except.pure, isTruthyBytes, truthy]

/-- Counterexample to C1 as stated: a genuine shape-3 response (list
message content with a bare b64_json item) from which main.py extracts the
payload, while the mobile_main.py extractor — which the claim says also
scans message-content lists — fails with NoImageData. -/
theorem C1_counterexample_mobile_shape3 :
    extractImageMain (mkShape3 [itemBareB64 "aGk="]) fetchNone = .ok [104, 105] ∧
    extractImageMobile (mkShape3 [itemBareB64 "aGk="]) fetchNone = .error .noImageData :=
  ⟨rfl, rfl⟩

/-- Fetch oracle of the C1 witness: one known URL. -/
def fetchC1 : Fetch := fun u => if u == "http://a" then .ok [9] else .error "e"

/-- Witness for C1: each shape family evaluated at concrete inputs through
the amended theorem. -/
theorem C1_shape_handling_amended_witness :
    fetchC1 "http://a" = .ok [9] ∧
    extractImageMain (mkShape1Url "http://a") fetchC1 = .ok [9] ∧
    b64decode "aGk=" = some [104, 105] ∧
    extractImageMain (mkShape1B64 "aGk=") fetchC1 = .ok [104, 105] ∧
    extractImageMain (mkShape2 "data:image/png;base64,aGk=") fetchC1 = .ok [104, 105] ∧
    extractImageMain (mkShape2 "http://a") fetchC1 = .ok [9] ∧
    extractImageMain (mkShape3 [itemImageUrl "http://a", J.null]) fetchC1 = .ok [9] ∧
    extractImageMain (mkShape3 [itemImageB64 "aGk=", J.null]) fetchC1 = .ok [104, 105] ∧
    searchDataImage (dumpsJ (mkShape3 [itemBareB64 "aGk="])) = none ∧
    extractImageMobile (mkShape3 [itemBareB64 "aGk="]) fetchC1 = .error .noImageData := by
  have h9 := C1_shape_handling_amended "http://a" "s" "e" 9 [] [] [J.null] fetchC1
  have hb := C1_shape_handling_amended "http://a" "aGk=" "e" 104 [105] [] [J.null] fetchC1
  have hd := C1_shape_handling_amended "http://a" "data:image/png;base64,aGk=" "aGk="
    104 [105] [] [] fetchC1
  have hu := C1_shape_handling_amended "http://a" "http://a" "e" 9 [] [] [] fetchC1
  exact ⟨rfl, h9.1 rfl, rfl, hb.2.1 rfl, hd.2.2.1 rfl rfl rfl, hu.2.2.2.1 rfl rfl rfl,
    h9.2.2.2.2.1 rfl, hb.2.2.2.2.2.1 rfl, rfl, hb.2.2.2.2.2.2.2.2.2.2 rfl⟩
